import Mathlib

/-
  Verification of the helldivers2 data pipeline (src/ingest_data.py).

  The pipeline fetches six JSON resources over HTTP, normalizes them into
  flat rows, and upserts them into six PostgreSQL relations inside one
  transaction.  We embed the data model and the functions fetch_json,
  fetch_all_data, store_data and main shallowly:

  * JSON payloads are the inductive `Json`; a Python `None` and a JSON
    `null` both become `Json.null` (faithful: `json.loads` maps null to
    None, and psycopg2 maps None to SQL NULL).  Numbers are carried as
    their literal strings since the pipeline does no arithmetic on them.
  * Exceptions are `Except String`; `d.get(k)` on a non-dict raises
    AttributeError, `int(s)` on a non-numeral raises ValueError, and the
    database rejects rows whose key is NULL / not an integer or whose
    column values do not fit the declared column type.
  * The HTTP layer is an oracle `net : String → HttpResult` giving, per
    URL, either a response (status + parsed JSON body) or a transport
    error (a requests.RequestException).  Bodies are assumed parseable.
  * The database is a `DB` of six association lists (tables) keyed by the
    integer primary key; a transaction is modelled by running all writes
    on a working copy which is published on commit and discarded on
    rollback.  `StoreEnv` says whether psycopg2.connect succeeds and
    whether one of the CREATE TABLE statements raises.
  * Log records are modelled structurally by `LogRec`; the per-entity
    "Stored ... successfully" info records are elided, the records the
    error handling depends on (fetch success/failure, store error, final
    success) are kept.
-/

namespace Pipeline

/-- Parsed JSON values.  `null` doubles as Python `None` (see header). -/
inductive Json where
  | null : Json
  | bool (b : Bool) : Json
  | num (s : String) : Json
  | str (s : String) : Json
  | arr (xs : List Json) : Json
  | obj (fields : List (String × Json)) : Json

/-- Python truthiness, used by the `if key in data and data[key]:` guards. -/
def Json.truthy : Json → Bool
  | .null => false
  | .bool b => b
  | .num s => !(s == "0" || s == "0.0")
  | .str s => !(s == "")
  | .arr xs => !xs.isEmpty
  | .obj fs => !fs.isEmpty

/-- Python `d.get(k)`: `None` when the key is absent; AttributeError when
the receiver is not a dict. -/
def Json.get1 : Json → String → Except String Json
  | .obj fs, k => .ok ((fs.lookup k).getD Json.null)
  | _, _ => .error "AttributeError: object has no attribute get"

/-- Python `d.get(k, default)`: the default only when the key is absent
(a stored null is returned as null, not as the default). -/
def Json.getD : Json → String → Json → Except String Json
  | .obj fs, k, d => .ok (match fs.lookup k with | some v => v | none => d)
  | _, _, _ => .error "AttributeError: object has no attribute get"

/-- Python `for x in v`: lists yield elements, dicts yield their keys,
strings yield their characters; anything else raises TypeError. -/
def pyIter : Json → Except String (List Json)
  | .arr xs => .ok xs
  | .obj fs => .ok (fs.map (fun kv => Json.str kv.1))
  | .str s => .ok (s.toList.map (fun c => Json.str (String.mk [c])))
  | _ => .error "TypeError: object is not iterable"

/-- Python `d.items()`; AttributeError when the receiver is not a dict. -/
def pyItems : Json → Except String (List (String × Json))
  | .obj fs => .ok fs
  | _ => .error "AttributeError: object has no attribute items"

mutual

/-- `json.dumps` (default separators; string escaping is not modelled,
the payloads written through it contain no quotes or control bytes). -/
def dumps : Json → String
  | .null => "null"
  | .bool true => "true"
  | .bool false => "false"
  | .num s => s
  | .str s => "\"" ++ s ++ "\""
  | .arr xs => "[" ++ dumpsL xs ++ "]"
  | .obj fs => "\x7b" ++ dumpsO fs ++ "\x7d"

/-- Comma-joined serialization of a JSON array body. -/
def dumpsL : List Json → String
  | [] => ""
  | [x] => dumps x
  | x :: y :: xs => dumps x ++ ", " ++ dumpsL (y :: xs)

/-- Comma-joined serialization of a JSON object body. -/
def dumpsO : List (String × Json) → String
  | [] => ""
  | [(k, v)] => "\"" ++ k ++ "\": " ++ dumps v
  | (k, v) :: f :: fs => "\"" ++ k ++ "\": " ++ dumps v ++ ", " ++ dumpsO (f :: fs)

end

/-! ## Fetcher (fetch_json, fetch_all_data) -/

/-- What the network returns for one GET: a response (final status code and
parsed body) or a raised requests.RequestException (transport error). -/
inductive HttpResult where
  | resp (status : Nat) (body : Json)
  | exn (cause : String)

/-- True when `fetch_json` takes its except-branch for this result:
`raise_for_status` raises HTTPError for 4xx/5xx, and a transport error is
raised by `requests.get` itself; both are RequestExceptions. -/
def httpFailed : HttpResult → Bool
  | .resp st _ => 400 ≤ st && st < 600
  | .exn _ => true

/-- The text that ends up in the error log for a failed result. -/
def failCause : HttpResult → String
  | .resp st _ => "HTTPError " ++ toString st
  | .exn c => c

/-- Log records (structural stand-ins for the formatted log lines). -/
inductive LogRec where
  | fetchOk (url : String)
  | fetchErr (url : String) (cause : String)
  | allStored
  | storeErr (cause : String)
  | info (msg : String)
deriving DecidableEq

def API_BASE_URL : String := "https://helldiverstrainingmanual.com/api/v1/war"
def PLANETS_URL : String := "https://helldiverstrainingmanual.com/api/v1/planets"

def ENDPOINTS : List (String × String) :=
  [("status", API_BASE_URL ++ "/status"),
   ("info", API_BASE_URL ++ "/info"),
   ("news", API_BASE_URL ++ "/news"),
   ("campaign", API_BASE_URL ++ "/campaign"),
   ("major_orders", API_BASE_URL ++ "/major-orders")]

/-- `fetch_json`: GET the URL, `raise_for_status`, return the parsed body;
on any RequestException log the error and return Python `None` (modelled
as `Option.none`).  The function never raises to its caller. -/
def fetch_json (net : String → HttpResult) (url : String) :
    Option Json × LogRec :=
  if httpFailed (net url) then
    (none, .fetchErr url (failCause (net url)))
  else
    match net url with
    | .resp _ body => (some body, .fetchOk url)
    | .exn c => (none, .fetchErr url c)

/-- `fetch_all_data`: one fetch per configured endpoint (in dict order),
then the planets directory; a failed fetch leaves `none` under its key. -/
def fetch_all_data (net : String → HttpResult) :
    List (String × Option Json) × List LogRec :=
  let static := ENDPOINTS.map (fun kv => (kv.1, fetch_json net kv.2))
  let planetsF := fetch_json net PLANETS_URL
  (static.map (fun x => (x.1, x.2.1)) ++ [("planets", planetsF.1)],
   static.map (fun x => x.2.2) ++ [planetsF.2])

/-! ## Column typing and tables -/

/-- The PostgreSQL column types appearing in the six CREATE TABLE
statements. -/
inductive ColTy where
  | int | float | bool | text | intArr | jsonb | timestamp

/-- Decimal digit test. -/
def isDigi (c : Char) : Bool := decide ('0' ≤ c) && decide (c ≤ '9')

/-- Accumulate decimal digits onto a value. -/
def digitsToNat : List Char → Nat → Nat
  | [], acc => acc
  | c :: cs, acc => digitsToNat cs (acc * 10 + (c.toNat - 48))

/-- Parse a (possibly negative) decimal integer literal, as Python
int(...) and the PostgreSQL integer cast accept it (restricted to an
optional single leading minus; whitespace, plus signs and underscores
are not modelled). -/
def intOfString? (s : String) : Option Int :=
  match s.toList with
  | [] => none
  | '-' :: cs =>
    if cs.isEmpty then none
    else if cs.all isDigi then some (-(digitsToNat cs 0 : Int)) else none
  | cs => if cs.all isDigi then some ((digitsToNat cs 0 : Int)) else none

/-- The literal is an integer numeral. -/
def isIntLit : Json → Bool
  | .num s => (intOfString? s).isSome
  | _ => false

/-- Does a parameter value fit a column of the given type?  NULL fits
every column; otherwise this follows the psycopg2 adaptation of the
Python values the script actually passes (ints/floats/bools/strs/lists,
plus json.dumps output for JSONB).  Timestamp strings are assumed
well-formed. -/
def typeOk : ColTy → Json → Bool
  | _, .null => true
  | .int, v => isIntLit v
  | .float, .num _ => true
  | .float, _ => false
  | .bool, .bool _ => true
  | .bool, _ => false
  | .text, .str _ => true
  | .text, _ => false
  | .intArr, .arr xs => xs.all isIntLit
  | .intArr, _ => false
  | .jsonb, .str _ => true
  | .jsonb, _ => false
  | .timestamp, .str _ => true
  | .timestamp, _ => false

/-- All non-key column values fit their declared types. -/
def typeCheckRow (tys : List ColTy) (cols : List Json) : Bool :=
  tys.length == cols.length &&
    (tys.zip cols).all (fun tc => typeOk tc.1 tc.2)

/-- A PRIMARY KEY INTEGER column value: NULL violates NOT NULL, and a
non-integer literal fails the cast. -/
def asIntKey : Json → Except String Int
  | .null => .error "NotNullViolation: null value in primary key column"
  | .num s =>
    match intOfString? s with
    | some n => .ok n
    | none => .error "InvalidTextRepresentation: invalid integer"
  | .str s =>
    match intOfString? s with
    | some n => .ok n
    | none => .error "InvalidTextRepresentation: invalid integer"
  | _ => .error "InvalidTextRepresentation: invalid integer"

/-- One relation: rows in physical order, keyed by the integer primary
key; the value list holds the non-key columns in schema order. -/
abbrev Table := List (Int × List Json)

/-- Keys of a table, in row order. -/
def keysT (t : Table) : List Int := t.map Prod.fst

/-- First row with the given key. -/
def lookupT : Table → Int → Option (List Json)
  | [], _ => none
  | (k, v) :: t, k' => if k = k' then some v else lookupT t k'

/-- Replace the non-key columns of every row with the given key, keeping
the row's position. -/
def replaceRow : Table → Int → List Json → Table
  | [], _, _ => []
  | (k₀, v₀) :: t, k, v =>
    if k₀ = k then (k, v) :: replaceRow t k v
    else (k₀, v₀) :: replaceRow t k v

/-- `INSERT ... ON CONFLICT (pk) DO UPDATE SET <all non-key cols>`:
replaces the whole non-key column set of the conflicting row in place, or
appends a fresh row. -/
def upsertRow (t : Table) (k : Int) (v : List Json) : Table :=
  if (lookupT t k).isSome then replaceRow t k v else t ++ [(k, v)]

/-- `INSERT ... ON CONFLICT (pk) DO NOTHING`: an existing key leaves the
table untouched. -/
def insIgnoreRow (t : Table) (k : Int) (v : List Json) : Table :=
  if (lookupT t k).isSome then t else t ++ [(k, v)]

/-- Normalized rows ready to write. -/
abbrev Rows := List (Int × List Json)

/-- Apply a sequence of full-replacement upserts in order. -/
def applyRows : Rows → Table → Table
  | [], t => t
  | (k, v) :: rs, t => applyRows rs (upsertRow t k v)

/-- Apply a sequence of insert-or-ignore writes in order. -/
def applyRowsIgn : Rows → Table → Table
  | [], t => t
  | (k, v) :: rs, t => applyRowsIgn rs (insIgnoreRow t k v)

/-! ## The per-resource write loops of store_data

Each loop body mirrors one `for ...: cursor.execute(...)` loop: build the
parameter tuple for the item (any `.get` on a non-dict raises there),
then execute the statement (the database rejects a bad key or a
type-mismatched column, raising).  Any raise aborts the whole loop. -/

/-- One upsert loop: per item build `(key, cols)`, type-check, write. -/
def storeLoop (mk : α → Except String (Int × List Json)) (tys : List ColTy) :
    List α → Table → Except String Table
  | [], t => .ok t
  | it :: rest, t =>
    match mk it with
    | .error e => .error e
    | .ok (k, cols) =>
      if typeCheckRow tys cols then storeLoop mk tys rest (upsertRow t k cols)
      else .error "DatatypeMismatch: column type mismatch"

/-- One insert-or-ignore loop (war_news). -/
def storeLoopIgn (mk : α → Except String (Int × List Json)) (tys : List ColTy) :
    List α → Table → Except String Table
  | [], t => .ok t
  | it :: rest, t =>
    match mk it with
    | .error e => .error e
    | .ok (k, cols) =>
      if typeCheckRow tys cols then storeLoopIgn mk tys rest (insIgnoreRow t k cols)
      else .error "DatatypeMismatch: column type mismatch"

/-- The rows a loop would write, independent of the table it writes to. -/
def normItems (mk : α → Except String (Int × List Json)) (tys : List ColTy) :
    List α → Except String Rows
  | [] => .ok []
  | it :: rest =>
    match mk it with
    | .error e => .error e
    | .ok (k, cols) =>
      if typeCheckRow tys cols then
        match normItems mk tys rest with
        | .error e => .error e
        | .ok rs => .ok ((k, cols) :: rs)
      else .error "DatatypeMismatch: column type mismatch"

/-- `if key in data and data[key]:` over the fetched dict — yields the
payload only when the key is present, was fetched (not None), and is
truthy. -/
def present (data : List (String × Option Json)) (k : String) : Option Json :=
  match data.lookup k with
  | some (some j) => if j.truthy then some j else none
  | _ => none

/-! ### status -/

/-- Envelope extraction for the `status` resource (lines 171–175), then
the loop's iteration (line 177). -/
def statusPrep (st : Json) :
    Except String (Json × Json × Json × Json × List Json) := do
  let ps ← st.getD "planetStatus" (.arr [])
  let warId ← st.get1 "warId"
  let time ← st.get1 "time"
  let im ← st.get1 "impactMultiplier"
  let sb ← st.get1 "storyBeatId32"
  let items ← pyIter ps
  .ok (warId, time, im, sb, items)

/-- Parameter tuple of the war_status INSERT (lines 190–200). -/
def mkStatusRow (warId time im sb : Json) (status : Json) :
    Except String (Int × List Json) := do
  let idx ← status.get1 "index"
  let owner ← status.get1 "owner"
  let health ← status.get1 "health"
  let regen ← status.get1 "regenPerSecond"
  let players ← status.get1 "players"
  let k ← asIntKey idx
  .ok (k, [owner, health, regen, players, warId, time, im, sb])

/-- Non-key column types of war_status. -/
def statusTys : List ColTy :=
  [.int, .int, .float, .int, .int, .int, .float, .int]

def storeStatusPhase (data : List (String × Option Json)) (t : Table) :
    Except String Table :=
  match present data "status" with
  | none => .ok t
  | some st =>
    match statusPrep st with
    | .error e => .error e
    | .ok (warId, time, im, sb, items) =>
      storeLoop (mkStatusRow warId time im sb) statusTys items t

def normStatusPhase (data : List (String × Option Json)) :
    Except String Rows :=
  match present data "status" with
  | none => .ok []
  | some st =>
    match statusPrep st with
    | .error e => .error e
    | .ok (warId, time, im, sb, items) =>
      normItems (mkStatusRow warId time im sb) statusTys items

/-! ### info -/

/-- Envelope extraction for the `info` resource (lines 205–209). -/
def infoPrep (iv : Json) :
    Except String (Json × Json × Json × Json × List Json) := do
  let pis ← iv.getD "planetInfos" (.arr [])
  let warId ← iv.get1 "warId"
  let startDate ← iv.get1 "startDate"
  let endDate ← iv.get1 "endDate"
  let minCV ← iv.get1 "minimumClientVersion"
  let items ← pyIter pis
  .ok (warId, startDate, endDate, minCV, items)

/-- Parameter tuple of the war_info INSERT (lines 212–244): `position`
defaults to an empty dict, `waypoints` to an empty list. -/
def mkInfoRow (warId startDate endDate minCV : Json) (info : Json) :
    Except String (Int × List Json) := do
  let position ← info.getD "position" (.obj [])
  let waypoints ← info.getD "waypoints" (.arr [])
  let idx ← info.get1 "index"
  let settingsHash ← info.get1 "settingsHash"
  let px ← position.get1 "x"
  let py ← position.get1 "y"
  let sector ← info.get1 "sector"
  let maxHealth ← info.get1 "maxHealth"
  let disabled ← info.get1 "disabled"
  let initialOwner ← info.get1 "initialOwner"
  let k ← asIntKey idx
  .ok (k, [settingsHash, px, py, waypoints, sector, maxHealth, disabled,
           initialOwner, warId, startDate, endDate, minCV])

/-- Non-key column types of war_info. -/
def infoTys : List ColTy :=
  [.int, .float, .float, .intArr, .int, .int, .bool, .int, .int, .int,
   .int, .text]

def storeInfoPhase (data : List (String × Option Json)) (t : Table) :
    Except String Table :=
  match present data "info" with
  | none => .ok t
  | some iv =>
    match infoPrep iv with
    | .error e => .error e
    | .ok (warId, startDate, endDate, minCV, items) =>
      storeLoop (mkInfoRow warId startDate endDate minCV) infoTys items t

def normInfoPhase (data : List (String × Option Json)) :
    Except String Rows :=
  match present data "info" with
  | none => .ok []
  | some iv =>
    match infoPrep iv with
    | .error e => .error e
    | .ok (warId, startDate, endDate, minCV, items) =>
      normItems (mkInfoRow warId startDate endDate minCV) infoTys items

/-! ### news -/

/-- Parameter tuple of the war_news INSERT (lines 255–261). -/
def mkNewsRow (news : Json) : Except String (Int × List Json) := do
  let idv ← news.get1 "id"
  let published ← news.get1 "published"
  let ty ← news.get1 "type"
  let tagIds ← news.get1 "tagIds"
  let message ← news.get1 "message"
  let k ← asIntKey idv
  .ok (k, [published, ty, tagIds, message])

/-- Non-key column types of war_news. -/
def newsTys : List ColTy := [.int, .int, .intArr, .text]

def storeNewsPhase (data : List (String × Option Json)) (t : Table) :
    Except String Table :=
  match present data "news" with
  | none => .ok t
  | some nv =>
    match pyIter nv with
    | .error e => .error e
    | .ok items => storeLoopIgn mkNewsRow newsTys items t

def normNewsPhase (data : List (String × Option Json)) :
    Except String Rows :=
  match present data "news" with
  | none => .ok []
  | some nv =>
    match pyIter nv with
    | .error e => .error e
    | .ok items => normItems mkNewsRow newsTys items

/-! ### campaign -/

/-- Parameter tuple of the war_campaign INSERT (lines 267–296):
`biome` defaults to an empty dict and is flattened to slug/description. -/
def mkCampaignRow (c : Json) : Except String (Int × List Json) := do
  let biome ← c.getD "biome" (.obj [])
  let pIdx ← c.get1 "planetIndex"
  let name ← c.get1 "name"
  let faction ← c.get1 "faction"
  let players ← c.get1 "players"
  let health ← c.get1 "health"
  let maxHealth ← c.get1 "maxHealth"
  let percentage ← c.get1 "percentage"
  let defense ← c.get1 "defense"
  let majorOrder ← c.get1 "majorOrder"
  let slug ← biome.get1 "slug"
  let desc ← biome.get1 "description"
  let expire ← c.get1 "expireDateTime"
  let k ← asIntKey pIdx
  .ok (k, [name, faction, players, health, maxHealth, percentage, defense,
           majorOrder, slug, desc, expire])

/-- Non-key column types of war_campaign. -/
def campaignTys : List ColTy :=
  [.text, .text, .int, .int, .int, .float, .bool, .bool, .text, .text,
   .timestamp]

def storeCampaignPhase (data : List (String × Option Json)) (t : Table) :
    Except String Table :=
  match present data "campaign" with
  | none => .ok t
  | some cv =>
    match pyIter cv with
    | .error e => .error e
    | .ok items => storeLoop mkCampaignRow campaignTys items t

def normCampaignPhase (data : List (String × Option Json)) :
    Except String Rows :=
  match present data "campaign" with
  | none => .ok []
  | some cv =>
    match pyIter cv with
    | .error e => .error e
    | .ok items => normItems mkCampaignRow campaignTys items

/-! ### major_orders -/

/-- Parameter tuple of the war_major_orders INSERT (lines 302–336):
`setting` and `setting.reward` default to empty dicts; the task list is
serialized with json.dumps. -/
def mkOrderRow (o : Json) : Except String (Int × List Json) := do
  let setting ← o.getD "setting" (.obj [])
  let id32 ← o.get1 "id32"
  let progress ← o.get1 "progress"
  let expiresIn ← o.get1 "expiresIn"
  let sTy ← setting.get1 "type"
  let oTitle ← setting.get1 "overrideTitle"
  let oBrief ← setting.get1 "overrideBrief"
  let taskDesc ← setting.get1 "taskDescription"
  let tasks ← setting.get1 "tasks"
  let reward ← setting.getD "reward" (.obj [])
  let rTy ← reward.get1 "type"
  let rId ← reward.get1 "id32"
  let rAmt ← reward.get1 "amount"
  let flags ← setting.get1 "flags"
  let k ← asIntKey id32
  .ok (k, [progress, expiresIn, sTy, oTitle, oBrief, taskDesc,
           .str (dumps tasks), rTy, rId, rAmt, flags])

/-- Non-key column types of war_major_orders. -/
def orderTys : List ColTy :=
  [.intArr, .int, .int, .text, .text, .text, .jsonb, .int, .int, .int,
   .int]

def storeOrdersPhase (data : List (String × Option Json)) (t : Table) :
    Except String Table :=
  match present data "major_orders" with
  | none => .ok t
  | some ov =>
    match pyIter ov with
    | .error e => .error e
    | .ok items => storeLoop mkOrderRow orderTys items t

def normOrdersPhase (data : List (String × Option Json)) :
    Except String Rows :=
  match present data "major_orders" with
  | none => .ok []
  | some ov =>
    match pyIter ov with
    | .error e => .error e
    | .ok items => normItems mkOrderRow orderTys items

/-! ### planets -/

/-- Parameter tuple of the planets INSERT (lines 342–360): one row per
entry of the keyed map; the map key is parsed with `int(...)`, the
environmentals list is serialized with json.dumps. -/
def mkPlanetRow (kv : String × Json) : Except String (Int × List Json) := do
  let biome ← kv.2.getD "biome" (.obj [])
  let env ← kv.2.getD "environmentals" (.arr [])
  let k ← match intOfString? kv.1 with
    | some n => Except.ok n
    | none => Except.error "ValueError: invalid literal for int"
  let name ← kv.2.get1 "name"
  let sector ← kv.2.get1 "sector"
  let slug ← biome.get1 "slug"
  let desc ← biome.get1 "description"
  .ok (k, [name, sector, slug, desc, .str (dumps env)])

/-- Non-key column types of planets. -/
def planetTys : List ColTy := [.text, .text, .text, .text, .jsonb]

def storePlanetsPhase (data : List (String × Option Json)) (t : Table) :
    Except String Table :=
  match present data "planets" with
  | none => .ok t
  | some pv =>
    match pyItems pv with
    | .error e => .error e
    | .ok items => storeLoop mkPlanetRow planetTys items t

def normPlanetsPhase (data : List (String × Option Json)) :
    Except String Rows :=
  match present data "planets" with
  | none => .ok []
  | some pv =>
    match pyItems pv with
    | .error e => .error e
    | .ok items => normItems mkPlanetRow planetTys items

/-! ## The store step -/

/-- The six relations. -/
structure DB where
  war_status : Table
  war_info : Table
  war_news : Table
  war_campaign : Table
  war_major_orders : Table
  planets : Table

/-- Environment of one store_data call: does psycopg2.connect succeed,
and does one of the CREATE TABLE IF NOT EXISTS statements raise. -/
structure StoreEnv where
  connectOk : Bool
  createFail : Bool

/-- The transaction body of store_data: the six CREATE TABLE statements,
then the six write phases in source order, against a working copy of the
store.  Any raise aborts the body. -/
def txBody (env : StoreEnv) (data : List (String × Option Json)) (db : DB) :
    Except String DB := do
  if env.createFail then Except.error "SchemaError: CREATE TABLE failed" else
  let s ← storeStatusPhase data db.war_status
  let i ← storeInfoPhase data db.war_info
  let n ← storeNewsPhase data db.war_news
  let c ← storeCampaignPhase data db.war_campaign
  let m ← storeOrdersPhase data db.war_major_orders
  let p ← storePlanetsPhase data db.planets
  .ok { war_status := s, war_info := i, war_news := n, war_campaign := c,
        war_major_orders := m, planets := p }

/-- `store_data` (lines 66–394).  If the connection cannot be created the
except-handler itself raises (it reads the never-assigned `conn`), so the
call raises to its caller.  Otherwise the body runs in one transaction:
commit publishes the working copy; any exception rolls the transaction
back, is logged, and is swallowed. -/
def store_data (env : StoreEnv) (data : List (String × Option Json))
    (db : DB) : Except String (DB × List LogRec) :=
  if env.connectOk then
    match txBody env data db with
    | .ok db' => .ok (db', [LogRec.info "All data stored successfully."])
    | .error e => .ok (db, [LogRec.storeErr e])
  else
    .error "UnboundLocalError: conn referenced before assignment"

/-- The store visible after one store_data call (a raised call leaves the
store as it was: nothing was connected, nothing written). -/
def runStore (env : StoreEnv) (data : List (String × Option Json))
    (db : DB) : DB :=
  match store_data env data db with
  | .ok (db', _) => db'
  | .error _ => db

/-- `main` (lines 396–400): fetch, store, and log unconditional success.
A raise out of store_data propagates (the log records written before the
crash are not modelled in the error case). -/
def main (net : String → HttpResult) (env : StoreEnv) (db : DB) :
    Except String (DB × List LogRec) :=
  match store_data env (fetch_all_data net).1 db with
  | .ok (db', slogs) =>
    .ok (db', (LogRec.info "Pipeline started." :: (fetch_all_data net).2)
              ++ slogs ++ [LogRec.info "Pipeline finished successfully."])
  | .error e => .error e

/-- The normalized rows of one whole run, per relation, in phase order;
errors exactly when the transaction body raises. -/
def normAll (env : StoreEnv) (data : List (String × Option Json)) :
    Except String (Rows × Rows × Rows × Rows × Rows × Rows) := do
  if env.createFail then Except.error "SchemaError: CREATE TABLE failed" else
  let a ← normStatusPhase data
  let b ← normInfoPhase data
  let c ← normNewsPhase data
  let d ← normCampaignPhase data
  let e ← normOrdersPhase data
  let f ← normPlanetsPhase data
  .ok (a, b, c, d, e, f)

/-- Apply one run's normalized rows to the store. -/
def applyAll : Rows × Rows × Rows × Rows × Rows × Rows → DB → DB
  | (a, b, c, d, e, f), db =>
    { war_status := applyRows a db.war_status,
      war_info := applyRows b db.war_info,
      war_news := applyRowsIgn c db.war_news,
      war_campaign := applyRows d db.war_campaign,
      war_major_orders := applyRows e db.war_major_orders,
      planets := applyRows f db.planets }

/-- All primary keys unique — the invariant the relational engine keeps
for the six tables. -/
def DB.wf (db : DB) : Prop :=
  (keysT db.war_status).Nodup ∧ (keysT db.war_info).Nodup ∧
    (keysT db.war_news).Nodup ∧ (keysT db.war_campaign).Nodup ∧
    (keysT db.war_major_orders).Nodup ∧ (keysT db.planets).Nodup

/-- The empty store. -/
def emptyDB : DB := ⟨[], [], [], [], [], []⟩

/-- Rows of a successful normalization; a failed one yields none. -/
def okRows : Except String Rows → Rows
  | .ok rs => rs
  | .error _ => []

/-- Primary keys the run's payload supplies for war_status. -/
def statusRunKeys (data : List (String × Option Json)) : List Int :=
  (okRows (normStatusPhase data)).map Prod.fst

/-- Primary keys the run's payload supplies for war_info. -/
def infoRunKeys (data : List (String × Option Json)) : List Int :=
  (okRows (normInfoPhase data)).map Prod.fst

/-- Primary keys the run's payload supplies for war_news. -/
def newsRunKeys (data : List (String × Option Json)) : List Int :=
  (okRows (normNewsPhase data)).map Prod.fst

/-- Primary keys the run's payload supplies for war_campaign. -/
def campaignRunKeys (data : List (String × Option Json)) : List Int :=
  (okRows (normCampaignPhase data)).map Prod.fst

/-- Primary keys the run's payload supplies for war_major_orders. -/
def ordersRunKeys (data : List (String × Option Json)) : List Int :=
  (okRows (normOrdersPhase data)).map Prod.fst

/-- Primary keys the run's payload supplies for planets. -/
def planetsRunKeys (data : List (String × Option Json)) : List Int :=
  (okRows (normPlanetsPhase data)).map Prod.fst

/-! ## Concrete payloads and environments used to exercise the model -/

def statusPayload : Json :=
  .obj [("warId", .num "801"), ("time", .num "100"),
        ("impactMultiplier", .num "1.5"), ("storyBeatId32", .num "7"),
        ("planetStatus", .arr [.obj [("index", .num "1"), ("owner", .num "2"),
          ("health", .num "9000"), ("regenPerSecond", .num "5.0"),
          ("players", .num "300")]])]

def infoPayload : Json :=
  .obj [("warId", .num "801"), ("startDate", .num "10"),
        ("endDate", .num "20"), ("minimumClientVersion", .str "0.3.0"),
        ("planetInfos", .arr [.obj [("index", .num "1"),
          ("settingsHash", .num "42"),
          ("position", .obj [("x", .num "0.5"), ("y", .num "-0.5")]),
          ("waypoints", .arr [.num "2", .num "3"]),
          ("sector", .num "9"), ("maxHealth", .num "1000"),
          ("disabled", .bool false), ("initialOwner", .num "1")]])]

def campaignPayload : Json :=
  .arr [.obj [("planetIndex", .num "1"), ("name", .str "Heeth"),
        ("faction", .str "Terminids"), ("players", .num "300"),
        ("health", .num "9000"), ("maxHealth", .num "10000"),
        ("percentage", .num "90.0"), ("defense", .bool false),
        ("majorOrder", .bool true),
        ("biome", .obj [("slug", .str "jungle"),
          ("description", .str "Lush")]),
        ("expireDateTime", .str "2024-05-01 00:00:00")]]

def ordersPayload : Json :=
  .arr [.obj [("id32", .num "11"), ("progress", .arr [.num "1"]),
        ("expiresIn", .num "5000"),
        ("setting", .obj [("type", .num "4"), ("overrideTitle", .str "MO"),
          ("overrideBrief", .str "Brief"),
          ("taskDescription", .str "Do it"), ("tasks", .arr []),
          ("reward", .obj [("type", .num "1"), ("id32", .num "9"),
            ("amount", .num "50")]),
          ("flags", .num "0")])]]

def planetsPayload : Json :=
  .obj [("1", .obj [("name", .str "Heeth"), ("sector", .str "Orion"),
        ("biome", .obj [("slug", .str "jungle"),
          ("description", .str "Lush")]),
        ("environmentals", .arr [])])]

/-- A network where the news endpoint suffers a transport error and every
other resource succeeds with the sample payloads. -/
def netNewsDown : String → HttpResult := fun url =>
  if url = API_BASE_URL ++ "/status" then .resp 200 statusPayload
  else if url = API_BASE_URL ++ "/info" then .resp 200 infoPayload
  else if url = API_BASE_URL ++ "/news" then .exn "ConnectionError: timeout"
  else if url = API_BASE_URL ++ "/campaign" then .resp 200 campaignPayload
  else if url = API_BASE_URL ++ "/major-orders" then .resp 200 ordersPayload
  else .resp 200 planetsPayload

/-- Every GET times out. -/
def netAllTimeout : String → HttpResult := fun _ =>
  .exn "ConnectionError: timeout"

/-- Every GET answers 500. -/
def netAll500 : String → HttpResult := fun _ => .resp 500 .null

def envOk : StoreEnv := ⟨true, false⟩
def envCreateFail : StoreEnv := ⟨true, true⟩
def envNoConn : StoreEnv := ⟨false, false⟩

/-- A status payload whose one planet record has no index: the INSERT
gets a NULL primary key and the database raises. -/
def badStatusData : List (String × Option Json) :=
  [("status", some (.obj [("planetStatus", .arr [.obj []])]))]

/-- A stored war_news row for id 42. -/
def newsRow42 : List Json := [.num "10", .num "0", .arr [], .str "old message"]

def dbNews : DB := { emptyDB with war_news := [(42, newsRow42)] }

/-- A fetched payload carrying news id 42 with different content. -/
def newsConflictData : List (String × Option Json) :=
  [("news", some (.arr [.obj [("id", .num "42"), ("published", .num "99"),
    ("type", .num "1"), ("tagIds", .arr [.num "5"]),
    ("message", .str "new message")]]))]

/-- Existing war_status rows for planets 5 (health 100) and 7. -/
def statusRow5old : List Json :=
  [.num "2", .num "100", .num "5.0", .num "300", .num "801", .num "100",
   .num "1.5", .num "7"]

def statusRow7 : List Json :=
  [.num "3", .num "555", .num "2.0", .num "40", .num "801", .num "100",
   .num "1.5", .num "7"]

def dbPlanets57 : DB :=
  { emptyDB with war_status := [(5, statusRow5old), (7, statusRow7)] }

/-- A run that re-ingests planet 5 with health 80 (and planet 7 absent). -/
def health80Data : List (String × Option Json) :=
  [("status", some (.obj [("warId", .num "801"), ("time", .num "100"),
    ("impactMultiplier", .num "1.5"), ("storyBeatId32", .num "7"),
    ("planetStatus", .arr [.obj [("index", .num "5"), ("owner", .num "2"),
      ("health", .num "80"), ("regenPerSecond", .num "5.0"),
      ("players", .num "250")]])]))]

/-- An info payload whose planet record has neither a position object nor
a waypoints list. -/
def infoNoPosData : List (String × Option Json) :=
  [("info", some (.obj [("warId", .num "801"),
    ("planetInfos", .arr [.obj [("index", .num "1"),
      ("settingsHash", .num "77")]])]))]

/-- Planet 5's war_status row after re-ingesting with health 80. -/
def statusRow5new : List Json :=
  [.num "2", .num "80", .num "5.0", .num "250", .num "801", .num "100",
   .num "1.5", .num "7"]

/-- A store holding key 99 in every relation. -/
def dbAll99 : DB :=
  ⟨[(99, [])], [(99, [])], [(99, [])], [(99, [])], [(99, [])], [(99, [])]⟩

/-- The store after the news-down sample run over the empty store. -/
def expectedNewsDownDB : DB :=
  { war_status := [(1, [.num "2", .num "9000", .num "5.0", .num "300",
      .num "801", .num "100", .num "1.5", .num "7"])],
    war_info := [(1, [.num "42", .num "0.5", .num "-0.5",
      .arr [.num "2", .num "3"], .num "9", .num "1000", .bool false,
      .num "1", .num "801", .num "10", .num "20", .str "0.3.0"])],
    war_news := [],
    war_campaign := [(1, [.str "Heeth", .str "Terminids", .num "300",
      .num "9000", .num "10000", .num "90.0", .bool false, .bool true,
      .str "jungle", .str "Lush", .str "2024-05-01 00:00:00"])],
    war_major_orders := [(11, [.arr [.num "1"], .num "5000", .num "4",
      .str "MO", .str "Brief", .str "Do it", .str "[]", .num "1",
      .num "9", .num "50", .num "0"])],
    planets := [(1, [.str "Heeth", .str "Orion", .str "jungle",
      .str "Lush", .str "[]"])] }

/-! ## Table lemmas -/

theorem lookupT_append (t₁ t₂ : Table) (k : Int) :
    lookupT (t₁ ++ t₂) k =
      (match lookupT t₁ k with | some v => some v | none => lookupT t₂ k) := by
  induction t₁ with
  | nil => simp [lookupT]
  | cons p t ih =>
    obtain ⟨k₀, v₀⟩ := p
    by_cases h : k₀ = k <;> simp [lookupT, h, ih]

theorem lookupT_replace_self (t : Table) (k : Int) (v : List Json) :
    lookupT (replaceRow t k v) k =
      if (lookupT t k).isSome then some v else none := by
  induction t with
  | nil => simp [replaceRow, lookupT]
  | cons p t ih =>
    obtain ⟨k₀, v₀⟩ := p
    by_cases h : k₀ = k
    · subst h
      simp [replaceRow, lookupT]
    · simp [replaceRow, lookupT, h, ih]

theorem lookupT_replace_ne (t : Table) (k : Int) (v : List Json) (k' : Int)
    (h : k' ≠ k) :
    lookupT (replaceRow t k v) k' = lookupT t k' := by
  induction t with
  | nil => simp [replaceRow]
  | cons p t ih =>
    obtain ⟨k₀, v₀⟩ := p
    by_cases h₀ : k₀ = k
    · subst h₀
      simp [replaceRow, lookupT, Ne.symm h, ih]
    · simp [replaceRow, lookupT, h₀, ih]

theorem keysT_replace (t : Table) (k : Int) (v : List Json) :
    keysT (replaceRow t k v) = keysT t := by
  induction t with
  | nil => simp [replaceRow]
  | cons p t ih =>
    obtain ⟨k₀, v₀⟩ := p
    simp only [keysT] at ih ⊢
    by_cases h : k₀ = k
    · subst h
      simp [replaceRow, ih]
    · simp [replaceRow, h, ih]

theorem lookupT_upsert_self (t : Table) (k : Int) (v : List Json) :
    lookupT (upsertRow t k v) k = some v := by
  unfold upsertRow
  by_cases h : (lookupT t k).isSome
  · simp [h, lookupT_replace_self]
  · rw [if_neg (by simp [h])]
    rw [lookupT_append]
    rw [Option.not_isSome_iff_eq_none] at h
    simp [h, lookupT]

theorem lookupT_upsert_ne (t : Table) (k : Int) (v : List Json) (k' : Int)
    (h : k' ≠ k) :
    lookupT (upsertRow t k v) k' = lookupT t k' := by
  unfold upsertRow
  by_cases hs : (lookupT t k).isSome
  · simp [hs, lookupT_replace_ne t k v k' h]
  · rw [if_neg (by simp [hs])]
    rw [lookupT_append]
    cases hl : lookupT t k' <;> simp [lookupT, Ne.symm h]

theorem keysT_upsert (t : Table) (k : Int) (v : List Json) :
    keysT (upsertRow t k v) =
      if (lookupT t k).isSome then keysT t else keysT t ++ [k] := by
  unfold upsertRow
  by_cases h : (lookupT t k).isSome
  · rw [if_pos h, if_pos h]
    exact keysT_replace t k v
  · rw [if_neg h, if_neg h]
    simp [keysT]

theorem mem_keysT_iff (t : Table) (k : Int) :
    k ∈ keysT t ↔ (lookupT t k).isSome := by
  induction t with
  | nil => simp [keysT, lookupT]
  | cons p t ih =>
    obtain ⟨k₀, v₀⟩ := p
    have hkeys : keysT ((k₀, v₀) :: t) = k₀ :: keysT t := rfl
    rw [hkeys, List.mem_cons]
    by_cases h : k₀ = k
    · subst h
      simp [lookupT]
    · have h' : ¬(k = k₀) := fun e => h e.symm
      simp [lookupT, h, h', ih]

theorem nodup_upsert (t : Table) (k : Int) (v : List Json)
    (h : (keysT t).Nodup) : (keysT (upsertRow t k v)).Nodup := by
  rw [keysT_upsert]
  by_cases hs : (lookupT t k).isSome
  · simpa [hs]
  · have hk : k ∉ keysT t := by
      rw [mem_keysT_iff]
      simp [hs]
    simp [hs, List.nodup_append, h, hk]

theorem table_ext : ∀ t₁ t₂ : Table, (keysT t₁).Nodup →
    keysT t₁ = keysT t₂ → (∀ k, lookupT t₁ k = lookupT t₂ k) → t₁ = t₂ := by
  intro t₁
  induction t₁ with
  | nil =>
    intro t₂ hn hk hl
    cases t₂ with
    | nil => rfl
    | cons p t => simp [keysT] at hk
  | cons p t₁ ih =>
    intro t₂ hn hk hl
    obtain ⟨k, v⟩ := p
    cases t₂ with
    | nil => simp [keysT] at hk
    | cons q t₂ =>
      obtain ⟨k₂, v₂⟩ := q
      simp only [keysT, List.map_cons, List.cons.injEq] at hk
      obtain ⟨hkk, hkt⟩ := hk
      subst hkk
      have hv : v = v₂ := by
        have := hl k
        simpa [lookupT] using this
      subst hv
      simp only [keysT, List.map_cons, List.nodup_cons] at hn
      have htail : t₁ = t₂ := by
        apply ih t₂ hn.2 hkt
        intro k'
        by_cases hk' : k' = k
        · subst hk'
          have h₁ : lookupT t₁ k' = none := by
            rw [← Option.not_isSome_iff_eq_none, ← mem_keysT_iff]
            exact fun hm => hn.1 hm
          have h₂ : lookupT t₂ k' = none := by
            rw [← Option.not_isSome_iff_eq_none, ← mem_keysT_iff]
            intro hm
            apply hn.1
            simp only [keysT] at hm
            rw [← hkt] at hm
            exact hm
          rw [h₁, h₂]
        · have := hl k'
          simpa [lookupT, Ne.symm hk'] using this
      rw [htail]

/-! ## applyRows lemmas -/

theorem mem_keysT_applyRows (rs : Rows) (t : Table) (k : Int)
    (h : k ∈ keysT t) : k ∈ keysT (applyRows rs t) := by
  induction rs generalizing t with
  | nil => exact h
  | cons r rs ih =>
    obtain ⟨k₀, v₀⟩ := r
    apply ih
    rw [keysT_upsert]
    by_cases hs : (lookupT t k₀).isSome <;> simp [hs, h]

theorem rowKey_mem_applyRows (rs : Rows) (t : Table) (k : Int)
    (v : List Json) (h : (k, v) ∈ rs) : k ∈ keysT (applyRows rs t) := by
  induction rs generalizing t with
  | nil => simp at h
  | cons r rs ih =>
    obtain ⟨k₀, v₀⟩ := r
    have hstep : applyRows ((k₀, v₀) :: rs) t
        = applyRows rs (upsertRow t k₀ v₀) := rfl
    rw [hstep]
    rcases List.mem_cons.mp h with heq | hm
    · have hk : k = k₀ := congrArg Prod.fst heq
      subst hk
      apply mem_keysT_applyRows
      rw [mem_keysT_iff, lookupT_upsert_self]
      rfl
    · exact ih _ hm

theorem keysT_applyRows_of_mem (rs : Rows) (t : Table)
    (h : ∀ p ∈ rs, p.1 ∈ keysT t) : keysT (applyRows rs t) = keysT t := by
  induction rs generalizing t with
  | nil => rfl
  | cons r rs ih =>
    obtain ⟨k₀, v₀⟩ := r
    have hk₀ : k₀ ∈ keysT t := h (k₀, v₀) (List.mem_cons_self _ _)
    have hkeys : keysT (upsertRow t k₀ v₀) = keysT t := by
      rw [keysT_upsert, if_pos ((mem_keysT_iff t k₀).mp hk₀)]
    have hcov : ∀ p ∈ rs, p.1 ∈ keysT (upsertRow t k₀ v₀) := by
      intro p hp
      rw [hkeys]
      exact h p (List.mem_cons_of_mem _ hp)
    have hstep : applyRows ((k₀, v₀) :: rs) t
        = applyRows rs (upsertRow t k₀ v₀) := rfl
    rw [hstep, ih (upsertRow t k₀ v₀) hcov, hkeys]

theorem lookupT_applyRows_of_not_mem (rs : Rows) (t : Table) (k : Int)
    (h : k ∉ rs.map Prod.fst) :
    lookupT (applyRows rs t) k = lookupT t k := by
  induction rs generalizing t with
  | nil => rfl
  | cons r rs ih =>
    obtain ⟨k₀, v₀⟩ := r
    simp only [List.map_cons, List.mem_cons, not_or] at h
    have hstep : applyRows ((k₀, v₀) :: rs) t
        = applyRows rs (upsertRow t k₀ v₀) := rfl
    rw [hstep, ih _ h.2, lookupT_upsert_ne _ _ _ _ h.1]

theorem lookupT_applyRows_congr (rs : Rows) (t u : Table)
    (h : ∀ k, k ∉ rs.map Prod.fst → lookupT t k = lookupT u k) :
    ∀ k, lookupT (applyRows rs t) k = lookupT (applyRows rs u) k := by
  induction rs generalizing t u with
  | nil => exact fun k => h k (by simp)
  | cons r rs ih =>
    obtain ⟨k₀, v₀⟩ := r
    intro k
    have hstep₁ : applyRows ((k₀, v₀) :: rs) t
        = applyRows rs (upsertRow t k₀ v₀) := rfl
    have hstep₂ : applyRows ((k₀, v₀) :: rs) u
        = applyRows rs (upsertRow u k₀ v₀) := rfl
    rw [hstep₁, hstep₂]
    apply ih
    intro k' hk'
    by_cases he : k' = k₀
    · subst he
      rw [lookupT_upsert_self, lookupT_upsert_self]
    · rw [lookupT_upsert_ne _ _ _ _ he, lookupT_upsert_ne _ _ _ _ he]
      exact h k' (by simp only [List.map_cons, List.mem_cons, not_or]; exact ⟨he, hk'⟩)

theorem nodup_applyRows (rs : Rows) (t : Table)
    (h : (keysT t).Nodup) : (keysT (applyRows rs t)).Nodup := by
  induction rs generalizing t with
  | nil => exact h
  | cons r rs ih =>
    obtain ⟨k₀, v₀⟩ := r
    exact ih _ (nodup_upsert _ _ _ h)

theorem applyRows_self (rs : Rows) (t : Table) (h : (keysT t).Nodup) :
    applyRows rs (applyRows rs t) = applyRows rs t := by
  apply table_ext
  · exact nodup_applyRows _ _ (nodup_applyRows _ _ h)
  · apply keysT_applyRows_of_mem
    intro p hp
    exact rowKey_mem_applyRows rs t p.1 p.2 hp
  · intro k
    exact lookupT_applyRows_congr rs (applyRows rs t) t
      (fun k' hk' => lookupT_applyRows_of_not_mem rs t k' hk') k

/-! ## insert-or-ignore lemmas -/

theorem insIgnore_of_isSome (t : Table) (k : Int) (v : List Json)
    (h : (lookupT t k).isSome) : insIgnoreRow t k v = t := by
  simp [insIgnoreRow, h]

theorem lookupT_insIgnore_isSome (t : Table) (k : Int) (v : List Json) :
    (lookupT (insIgnoreRow t k v) k).isSome := by
  unfold insIgnoreRow
  by_cases h : (lookupT t k).isSome
  · simp [h]
  · rw [if_neg (by simp [h]), lookupT_append]
    rw [Option.not_isSome_iff_eq_none] at h
    simp [h, lookupT]

theorem lookupT_insIgnore_preserve (t : Table) (k : Int) (v : List Json)
    (k' : Int) (w : List Json) (h : lookupT t k' = some w) :
    lookupT (insIgnoreRow t k v) k' = some w := by
  unfold insIgnoreRow
  by_cases hs : (lookupT t k).isSome
  · simpa [hs]
  · rw [if_neg (by simp [hs]), lookupT_append, h]

theorem lookupT_insIgnore_ne (t : Table) (k : Int) (v : List Json)
    (k' : Int) (h : k' ≠ k) :
    lookupT (insIgnoreRow t k v) k' = lookupT t k' := by
  unfold insIgnoreRow
  by_cases hs : (lookupT t k).isSome
  · simp [hs]
  · rw [if_neg (by simp [hs]), lookupT_append]
    cases hl : lookupT t k' <;> simp [lookupT, Ne.symm h]

theorem mem_keysT_insIgnore (t : Table) (k : Int) (v : List Json)
    (k' : Int) (h : k' ∈ keysT t) : k' ∈ keysT (insIgnoreRow t k v) := by
  unfold insIgnoreRow
  by_cases hs : (lookupT t k).isSome
  · rw [if_pos hs]
    exact h
  · rw [if_neg hs]
    have hkeys : keysT (t ++ [(k, v)]) = keysT t ++ [k] := by simp [keysT]
    rw [hkeys]
    exact List.mem_append_left _ h

theorem nodup_insIgnore (t : Table) (k : Int) (v : List Json)
    (h : (keysT t).Nodup) : (keysT (insIgnoreRow t k v)).Nodup := by
  unfold insIgnoreRow
  by_cases hs : (lookupT t k).isSome
  · simpa [hs]
  · have hk : k ∉ keysT t := by
      rw [mem_keysT_iff]
      simp [hs]
    rw [if_neg (by simp [hs])]
    have : keysT (t ++ [(k, v)]) = keysT t ++ [k] := by simp [keysT]
    rw [this, List.nodup_append]
    refine ⟨h, List.nodup_singleton k, ?_⟩
    intro a ha hb
    simp at hb
    subst hb
    exact hk ha

theorem lookupT_applyRowsIgn_preserve (rs : Rows) (t : Table) (k : Int)
    (w : List Json) (h : lookupT t k = some w) :
    lookupT (applyRowsIgn rs t) k = some w := by
  induction rs generalizing t with
  | nil => exact h
  | cons r rs ih =>
    obtain ⟨k₀, v₀⟩ := r
    exact ih _ (lookupT_insIgnore_preserve _ _ _ _ _ h)

theorem lookupT_applyRowsIgn_of_not_mem (rs : Rows) (t : Table) (k : Int)
    (h : k ∉ rs.map Prod.fst) :
    lookupT (applyRowsIgn rs t) k = lookupT t k := by
  induction rs generalizing t with
  | nil => rfl
  | cons r rs ih =>
    obtain ⟨k₀, v₀⟩ := r
    simp only [List.map_cons, List.mem_cons, not_or] at h
    rw [applyRowsIgn, ih _ h.2, lookupT_insIgnore_ne _ _ _ _ h.1]

theorem mem_keysT_applyRowsIgn (rs : Rows) (t : Table) (k : Int)
    (h : k ∈ keysT t) : k ∈ keysT (applyRowsIgn rs t) := by
  induction rs generalizing t with
  | nil => exact h
  | cons r rs ih =>
    obtain ⟨k₀, v₀⟩ := r
    exact ih _ (mem_keysT_insIgnore _ _ _ _ h)

theorem nodup_applyRowsIgn (rs : Rows) (t : Table)
    (h : (keysT t).Nodup) : (keysT (applyRowsIgn rs t)).Nodup := by
  induction rs generalizing t with
  | nil => exact h
  | cons r rs ih =>
    obtain ⟨k₀, v₀⟩ := r
    exact ih _ (nodup_insIgnore _ _ _ h)

theorem applyRowsIgn_self (rs : Rows) (t : Table) :
    applyRowsIgn rs (applyRowsIgn rs t) = applyRowsIgn rs t := by
  induction rs generalizing t with
  | nil => rfl
  | cons r rs ih =>
    obtain ⟨k₀, v₀⟩ := r
    rw [applyRowsIgn, applyRowsIgn]
    have hsome : (lookupT (applyRowsIgn rs (insIgnoreRow t k₀ v₀)) k₀).isSome := by
      rw [← mem_keysT_iff]
      apply mem_keysT_applyRowsIgn
      rw [mem_keysT_iff]
      exact lookupT_insIgnore_isSome t k₀ v₀
    rw [insIgnore_of_isSome _ _ _ hsome]
    exact ih (insIgnoreRow t k₀ v₀)

/-! ## Staging: a write loop equals normalize-then-apply

The loops interleave row building and row writing, but a loop error makes
the whole transaction roll back, so each loop is extensionally "normalize
the item list, then apply all rows". -/

theorem storeLoop_eq (mk : α → Except String (Int × List Json))
    (tys : List ColTy) (items : List α) (t : Table) :
    storeLoop mk tys items t =
      (normItems mk tys items).map (fun rs => applyRows rs t) := by
  induction items generalizing t with
  | nil => rfl
  | cons it rest ih =>
    simp only [storeLoop, normItems]
    cases mk it with
    | error e => rfl
    | ok kc =>
      obtain ⟨k, cols⟩ := kc
      dsimp only
      by_cases h : typeCheckRow tys cols
      · rw [if_pos h, if_pos h, ih]
        cases hn : normItems mk tys rest with
        | error e => rfl
        | ok rs => rfl
      · rw [if_neg h, if_neg h]
        rfl

theorem storeLoopIgn_eq (mk : α → Except String (Int × List Json))
    (tys : List ColTy) (items : List α) (t : Table) :
    storeLoopIgn mk tys items t =
      (normItems mk tys items).map (fun rs => applyRowsIgn rs t) := by
  induction items generalizing t with
  | nil => rfl
  | cons it rest ih =>
    simp only [storeLoopIgn, normItems]
    cases mk it with
    | error e => rfl
    | ok kc =>
      obtain ⟨k, cols⟩ := kc
      dsimp only
      by_cases h : typeCheckRow tys cols
      · rw [if_pos h, if_pos h, ih]
        cases hn : normItems mk tys rest with
        | error e => rfl
        | ok rs => rfl
      · rw [if_neg h, if_neg h]
        rfl

theorem storeStatusPhase_eq (data : List (String × Option Json)) (t : Table) :
    storeStatusPhase data t =
      (normStatusPhase data).map (fun rs => applyRows rs t) := by
  unfold storeStatusPhase normStatusPhase
  cases hp : present data "status" with
  | none => rfl
  | some st =>
    dsimp only
    cases hq : statusPrep st with
    | error e => rfl
    | ok q =>
      obtain ⟨warId, time, im, sb, items⟩ := q
      dsimp only
      exact storeLoop_eq _ _ _ _

theorem storeInfoPhase_eq (data : List (String × Option Json)) (t : Table) :
    storeInfoPhase data t =
      (normInfoPhase data).map (fun rs => applyRows rs t) := by
  unfold storeInfoPhase normInfoPhase
  cases hp : present data "info" with
  | none => rfl
  | some iv =>
    dsimp only
    cases hq : infoPrep iv with
    | error e => rfl
    | ok q =>
      obtain ⟨warId, startDate, endDate, minCV, items⟩ := q
      dsimp only
      exact storeLoop_eq _ _ _ _

theorem storeNewsPhase_eq (data : List (String × Option Json)) (t : Table) :
    storeNewsPhase data t =
      (normNewsPhase data).map (fun rs => applyRowsIgn rs t) := by
  unfold storeNewsPhase normNewsPhase
  cases hp : present data "news" with
  | none => rfl
  | some nv =>
    dsimp only
    cases hq : pyIter nv with
    | error e => rfl
    | ok items =>
      dsimp only
      exact storeLoopIgn_eq _ _ _ _

theorem storeCampaignPhase_eq (data : List (String × Option Json)) (t : Table) :
    storeCampaignPhase data t =
      (normCampaignPhase data).map (fun rs => applyRows rs t) := by
  unfold storeCampaignPhase normCampaignPhase
  cases hp : present data "campaign" with
  | none => rfl
  | some cv =>
    dsimp only
    cases hq : pyIter cv with
    | error e => rfl
    | ok items =>
      dsimp only
      exact storeLoop_eq _ _ _ _

theorem storeOrdersPhase_eq (data : List (String × Option Json)) (t : Table) :
    storeOrdersPhase data t =
      (normOrdersPhase data).map (fun rs => applyRows rs t) := by
  unfold storeOrdersPhase normOrdersPhase
  cases hp : present data "major_orders" with
  | none => rfl
  | some ov =>
    dsimp only
    cases hq : pyIter ov with
    | error e => rfl
    | ok items =>
      dsimp only
      exact storeLoop_eq _ _ _ _

theorem storePlanetsPhase_eq (data : List (String × Option Json)) (t : Table) :
    storePlanetsPhase data t =
      (normPlanetsPhase data).map (fun rs => applyRows rs t) := by
  unfold storePlanetsPhase normPlanetsPhase
  cases hp : present data "planets" with
  | none => rfl
  | some pv =>
    dsimp only
    cases hq : pyItems pv with
    | error e => rfl
    | ok items =>
      dsimp only
      exact storeLoop_eq _ _ _ _

theorem txBody_eq (env : StoreEnv) (data : List (String × Option Json))
    (db : DB) :
    txBody env data db = (normAll env data).map (fun r => applyAll r db) := by
  unfold txBody normAll
  cases hc : env.createFail with
  | true => rfl
  | false =>
    simp only [Bool.false_eq_true, if_false]
    rw [storeStatusPhase_eq]
    cases h₁ : normStatusPhase data with
    | error e => rfl
    | ok a =>
      simp only [Except.map, Except.bind, bind]
      rw [storeInfoPhase_eq]
      cases h₂ : normInfoPhase data with
      | error e => rfl
      | ok b =>
        simp only [Except.map, Except.bind, bind]
        rw [storeNewsPhase_eq]
        cases h₃ : normNewsPhase data with
        | error e => rfl
        | ok c =>
          simp only [Except.map, Except.bind, bind]
          rw [storeCampaignPhase_eq]
          cases h₄ : normCampaignPhase data with
          | error e => rfl
          | ok d =>
            simp only [Except.map, Except.bind, bind]
            rw [storeOrdersPhase_eq]
            cases h₅ : normOrdersPhase data with
            | error e => rfl
            | ok m =>
              simp only [Except.map, Except.bind, bind]
              rw [storePlanetsPhase_eq]
              cases h₆ : normPlanetsPhase data with
              | error e => rfl
              | ok p => rfl

/-- The store after one store_data call, as a function of the normalized
rows: unchanged unless the connection succeeded and the whole transaction
body ran without an exception. -/
theorem runStore_eq (env : StoreEnv) (data : List (String × Option Json))
    (db : DB) :
    runStore env data db =
      if env.connectOk then
        match normAll env data with
        | .ok r => applyAll r db
        | .error _ => db
      else db := by
  unfold runStore store_data
  cases hc : env.connectOk with
  | false => rfl
  | true =>
    simp only [if_true]
    rw [txBody_eq]
    cases hn : normAll env data with
    | error e => rfl
    | ok r => rfl

theorem lookupT_applyRows_isSome (rs : Rows) (t : Table) (k : Int)
    (h : (lookupT t k).isSome) : (lookupT (applyRows rs t) k).isSome := by
  rw [← mem_keysT_iff] at h ⊢
  exact mem_keysT_applyRows rs t k h

theorem lookupT_applyRowsIgn_isSome (rs : Rows) (t : Table) (k : Int)
    (h : (lookupT t k).isSome) : (lookupT (applyRowsIgn rs t) k).isSome := by
  rw [← mem_keysT_iff] at h ⊢
  exact mem_keysT_applyRowsIgn rs t k h

/-- Inverting a successful whole-run normalization into the per-phase
results. -/
theorem normAll_ok_inv (env : StoreEnv) (data : List (String × Option Json))
    (r : Rows × Rows × Rows × Rows × Rows × Rows)
    (h : normAll env data = .ok r) :
    env.createFail = false ∧
    normStatusPhase data = .ok r.1 ∧
    normInfoPhase data = .ok r.2.1 ∧
    normNewsPhase data = .ok r.2.2.1 ∧
    normCampaignPhase data = .ok r.2.2.2.1 ∧
    normOrdersPhase data = .ok r.2.2.2.2.1 ∧
    normPlanetsPhase data = .ok r.2.2.2.2.2 := by
  unfold normAll at h
  cases hc : env.createFail with
  | true =>
    rw [hc] at h
    simp at h
  | false =>
    rw [hc] at h
    simp only [Bool.false_eq_true, if_false] at h
    cases h₁ : normStatusPhase data with
    | error e => rw [h₁] at h; simp [bind, Except.bind] at h
    | ok a =>
      rw [h₁] at h
      simp only [bind, Except.bind] at h
      cases h₂ : normInfoPhase data with
      | error e => rw [h₂] at h; simp [bind, Except.bind] at h
      | ok b =>
        rw [h₂] at h
        simp only [bind, Except.bind] at h
        cases h₃ : normNewsPhase data with
        | error e => rw [h₃] at h; simp [bind, Except.bind] at h
        | ok c =>
          rw [h₃] at h
          simp only [bind, Except.bind] at h
          cases h₄ : normCampaignPhase data with
          | error e => rw [h₄] at h; simp [bind, Except.bind] at h
          | ok d =>
            rw [h₄] at h
            simp only [bind, Except.bind] at h
            cases h₅ : normOrdersPhase data with
            | error e => rw [h₅] at h; simp [bind, Except.bind] at h
            | ok m =>
              rw [h₅] at h
              simp only [bind, Except.bind] at h
              cases h₆ : normPlanetsPhase data with
              | error e => rw [h₆] at h; simp [bind, Except.bind] at h
              | ok p =>
                rw [h₆] at h
                simp only [bind, Except.bind, Except.ok.injEq] at h
                subst h
                exact ⟨rfl, rfl, rfl, rfl, rfl, rfl, rfl⟩

/-- Applying one run's rows twice is the same as applying them once, on a
store with unique primary keys. -/
theorem applyAll_idem (r : Rows × Rows × Rows × Rows × Rows × Rows)
    (db : DB) (h : db.wf) : applyAll r (applyAll r db) = applyAll r db := by
  obtain ⟨ra, rb, rc, rd, re, rf⟩ := r
  obtain ⟨s, i, n, c, m, p⟩ := db
  obtain ⟨h1, h2, h3, h4, h5, h6⟩ := h
  simp only [applyAll]
  rw [applyRows_self _ _ h1, applyRows_self _ _ h2, applyRowsIgn_self,
     applyRows_self _ _ h4, applyRows_self _ _ h5, applyRows_self _ _ h6]

/-! ## Claims -/

/-- C1: if any exception is raised while creating the six tables or while
executing any upsert inside store_data, the whole transaction is rolled
back and nothing from the run is persisted — store_data returns with the
store exactly as it was before the run, plus only an error log record. -/
theorem C1_rollback_on_failure (env : StoreEnv)
    (data : List (String × Option Json)) (db : DB) (e : String)
    (hconn : env.connectOk = true) (herr : txBody env data db = .error e) :
    store_data env data db = .ok (db, [LogRec.storeErr e]) := by
  unfold store_data
  rw [if_pos hconn, herr]

/-- Witness for C1: a run whose single status record lacks an index gets
a NULL primary key, the INSERT raises, and the populated store is left
unchanged. -/
theorem C1_rollback_on_failure_witness :
    envOk.connectOk = true ∧
    txBody envOk badStatusData dbNews
      = .error "NotNullViolation: null value in primary key column" ∧
    store_data envOk badStatusData dbNews
      = .ok (dbNews,
          [LogRec.storeErr "NotNullViolation: null value in primary key column"]) :=
  ⟨rfl, rfl, C1_rollback_on_failure envOk badStatusData dbNews _ rfl rfl⟩

/-- C2: a war_news row, once stored, is never modified by any later run —
its whole column list is preserved under every store_data call, whatever
the incoming payload carries for that id. -/
theorem C2_warNews_immutable (env : StoreEnv)
    (data : List (String × Option Json)) (db : DB) (k : Int) (v : List Json)
    (h : lookupT db.war_news k = some v) :
    lookupT (runStore env data db).war_news k = some v := by
  rw [runStore_eq]
  cases hc : env.connectOk with
  | false => exact h
  | true =>
    cases hn : normAll env data with
    | error e => exact h
    | ok r =>
      obtain ⟨ra, rb, rc, rd, re, rf⟩ := r
      show lookupT (applyAll (ra, rb, rc, rd, re, rf) db).war_news k = some v
      simp only [applyAll]
      exact lookupT_applyRowsIgn_preserve rc _ k v h

/-- Witness for C2: re-ingesting news id 42 with a different message,
published time, type and tag list leaves the stored row intact. -/
theorem C2_warNews_immutable_witness :
    lookupT dbNews.war_news 42 = some newsRow42 ∧
    lookupT (runStore envOk newsConflictData dbNews).war_news 42
      = some newsRow42 :=
  ⟨rfl, C2_warNews_immutable envOk newsConflictData dbNews 42 newsRow42 rfl⟩

/-- C3: running the store step twice with the same payload gives the same
relation contents as running it once (on a store whose primary keys are
unique, as the database guarantees). -/
theorem C3_store_idempotent (env : StoreEnv)
    (data : List (String × Option Json)) (db : DB) (h : db.wf) :
    runStore env data (runStore env data db) = runStore env data db := by
  simp only [runStore_eq]
  cases hc : env.connectOk with
  | false => rfl
  | true =>
    cases hn : normAll env data with
    | error e => rfl
    | ok r => exact applyAll_idem r db h

/-- Witness for C3 on the news-down sample payload over a populated
store. -/
theorem C3_store_idempotent_witness :
    dbNews.wf ∧
    runStore envOk (fetch_all_data netNewsDown).1
        (runStore envOk (fetch_all_data netNewsDown).1 dbNews)
      = runStore envOk (fetch_all_data netNewsDown).1 dbNews := by
  have hwf : dbNews.wf :=
    ⟨by decide, by decide, by decide, by decide, by decide, by decide⟩
  exact ⟨hwf,
    C3_store_idempotent envOk (fetch_all_data netNewsDown).1 dbNews hwf⟩

/-- C10: store_data raises to its caller exactly when creating the
connection fails (the except handler reads the never-assigned conn and
raises UnboundLocalError); with a connection it always returns normally. -/
theorem C10_connect_failure_raises (env : StoreEnv)
    (data : List (String × Option Json)) (db : DB) :
    (store_data env data db).isOk = env.connectOk ∧
    (env.connectOk = false →
      store_data env data db
        = .error "UnboundLocalError: conn referenced before assignment") := by
  unfold store_data
  cases hc : env.connectOk with
  | false => exact ⟨rfl, fun _ => rfl⟩
  | true =>
    constructor
    · show (match txBody env data db with
        | .ok db' => Except.ok (db', [LogRec.info "All data stored successfully."])
        | .error e => Except.ok (db, [LogRec.storeErr e])).isOk = true
      cases ht : txBody env data db with
      | ok db' => rfl
      | error e => rfl
    · intro hfalse
      cases hfalse

/-- Witness for C10: with a failing connection the call raises. -/
theorem C10_connect_failure_raises_witness :
    (store_data envNoConn [] emptyDB).isOk = envNoConn.connectOk ∧
    store_data envNoConn [] emptyDB
      = .error "UnboundLocalError: conn referenced before assignment" :=
  ⟨(C10_connect_failure_raises envNoConn [] emptyDB).1,
   (C10_connect_failure_raises envNoConn [] emptyDB).2 rfl⟩

/-- C5 counterexample: two failed fetches of different resources with
different causes (a timeout on status, a 500 on news) both return plain
None — the returned failure value is one and the same and so carries
neither the resource key nor the underlying cause. -/
theorem C5_counterexample :
    (fetch_json netAllTimeout (API_BASE_URL ++ "/status")).1 = none ∧
    (fetch_json netAll500 (API_BASE_URL ++ "/news")).1 = none ∧
    (fetch_json netAllTimeout (API_BASE_URL ++ "/status")).1
      = (fetch_json netAll500 (API_BASE_URL ++ "/news")).1 :=
  ⟨rfl, rfl, rfl⟩

/-- C5 amended: on a 4xx/5xx status or a transport error fetch_json does
not raise to its caller: it returns None — a bare failure marker that
carries neither the resource key nor the cause — and records the URL and
cause only in the error log. -/
theorem C5_fetch_failure_returns_none (net : String → HttpResult)
    (url : String) (h : httpFailed (net url) = true) :
    fetch_json net url = (none, LogRec.fetchErr url (failCause (net url))) := by
  unfold fetch_json
  rw [if_pos h]

/-- Witness for amended C5 at a 500 answer on the planets directory. -/
theorem C5_fetch_failure_returns_none_witness :
    httpFailed (netAll500 PLANETS_URL) = true ∧
    fetch_json netAll500 PLANETS_URL
      = (none, LogRec.fetchErr PLANETS_URL "HTTPError 500") :=
  ⟨rfl, C5_fetch_failure_returns_none netAll500 PLANETS_URL rfl⟩

/-- C9 counterexample: a run whose schema creation raises is rolled back,
yet store_data returns ok — the same outcome constructor a fully
successful run yields — and main completes normally, still appending the
unconditional pipeline-success log line.  The caller cannot observe the
hard failure as a distinct run outcome; only the error log record
distinguishes it. -/
theorem C9_counterexample :
    txBody envCreateFail (fetch_all_data netNewsDown).1 emptyDB
      = .error "SchemaError: CREATE TABLE failed" ∧
    (store_data envCreateFail (fetch_all_data netNewsDown).1 emptyDB).isOk
      = true ∧
    (store_data envOk (fetch_all_data netNewsDown).1 emptyDB).isOk = true ∧
    main netNewsDown envCreateFail emptyDB
      = .ok (emptyDB,
          [LogRec.info "Pipeline started.",
           LogRec.fetchOk (API_BASE_URL ++ "/status"),
           LogRec.fetchOk (API_BASE_URL ++ "/info"),
           LogRec.fetchErr (API_BASE_URL ++ "/news") "ConnectionError: timeout",
           LogRec.fetchOk (API_BASE_URL ++ "/campaign"),
           LogRec.fetchOk (API_BASE_URL ++ "/major-orders"),
           LogRec.fetchOk PLANETS_URL,
           LogRec.storeErr "SchemaError: CREATE TABLE failed",
           LogRec.info "Pipeline finished successfully."]) :=
  ⟨rfl, rfl, rfl, rfl⟩

/-- C9 amended: a schema or upsert error rolls the transaction back and
is written to the log as an error record, but store_data swallows the
exception and returns normally; main then logs unconditional pipeline
success, so the hard failure is observable only through the error log
record, not as a distinct outcome at the caller. -/
theorem C9_hard_failure_only_logged (net : String → HttpResult)
    (env : StoreEnv) (db : DB) (e : String)
    (hconn : env.connectOk = true)
    (herr : txBody env (fetch_all_data net).1 db = .error e) :
    main net env db
      = .ok (db, (LogRec.info "Pipeline started." :: (fetch_all_data net).2)
                 ++ [LogRec.storeErr e]
                 ++ [LogRec.info "Pipeline finished successfully."]) := by
  unfold main store_data
  rw [if_pos hconn, herr]

/-- Witness for amended C9 on the sample run with a failing CREATE
TABLE. -/
theorem C9_hard_failure_only_logged_witness :
    envCreateFail.connectOk = true ∧
    txBody envCreateFail (fetch_all_data netNewsDown).1 dbNews
      = .error "SchemaError: CREATE TABLE failed" ∧
    main netNewsDown envCreateFail dbNews
      = .ok (dbNews,
          (LogRec.info "Pipeline started." :: (fetch_all_data netNewsDown).2)
            ++ [LogRec.storeErr "SchemaError: CREATE TABLE failed"]
            ++ [LogRec.info "Pipeline finished successfully."]) :=
  ⟨rfl, rfl,
   C9_hard_failure_only_logged netNewsDown envCreateFail dbNews _ rfl rfl⟩

/-- C6 counterexample: a planet info record with no waypoints list is
stored with an empty integer array — not NULL — in the waypoints column,
so the claimed missing-means-null rule fails for list-valued fields. -/
theorem C6_counterexample :
    lookupT (runStore envOk infoNoPosData emptyDB).war_info 1
      = some [.num "77", .null, .null, .arr [], .null, .null, .null, .null,
              .num "801", .null, .null, .null] ∧
    Json.arr [] ≠ Json.null :=
  ⟨rfl, fun h => Json.noConfusion h⟩

/-- C6 amended: absent scalar fields are written as NULL and the write
does not raise — in particular a record with no position object yields
NULL position_x and position_y — but absent list-valued fields are not
NULL: waypoints defaults to the empty integer array, and environmentals
to the JSON text of the empty list (with an absent biome flattening to
NULL slug and description). -/
theorem C6_missing_optional_fields (warId startDate endDate minCV : Json)
    (fields : List (String × Json)) (k : Int)
    (hpos : fields.lookup "position" = none)
    (hway : fields.lookup "waypoints" = none)
    (hidx : asIntKey ((fields.lookup "index").getD Json.null) = .ok k) :
    mkInfoRow warId startDate endDate minCV (.obj fields)
      = .ok (k, [(fields.lookup "settingsHash").getD Json.null,
                 Json.null, Json.null, Json.arr [],
                 (fields.lookup "sector").getD Json.null,
                 (fields.lookup "maxHealth").getD Json.null,
                 (fields.lookup "disabled").getD Json.null,
                 (fields.lookup "initialOwner").getD Json.null,
                 warId, startDate, endDate, minCV]) ∧
    (∀ (pfields : List (String × Json)) (pidx : String) (k' : Int),
      pfields.lookup "environmentals" = none →
      pfields.lookup "biome" = none →
      intOfString? pidx = some k' →
      mkPlanetRow (pidx, .obj pfields)
        = .ok (k', [(pfields.lookup "name").getD Json.null,
                    (pfields.lookup "sector").getD Json.null,
                    Json.null, Json.null, Json.str "[]"])) := by
  constructor
  · unfold mkInfoRow
    simp only [Json.getD, hpos, hway, Json.get1, bind, Except.bind]
    rw [hidx]
    rfl
  · intro pfields pidx k' henv hbio hk'
    unfold mkPlanetRow
    simp only [Json.getD, henv, hbio, Json.get1, bind, Except.bind]
    rw [hk']
    rfl

/-- Witness for amended C6 at concrete records missing position,
waypoints, biome and environmentals. -/
theorem C6_missing_optional_fields_witness :
    ([("index", Json.num "1"), ("settingsHash", Json.num "77")].lookup
        "position" = none) ∧
    ([("index", Json.num "1"), ("settingsHash", Json.num "77")].lookup
        "waypoints" = none) ∧
    asIntKey (([("index", Json.num "1"),
        ("settingsHash", Json.num "77")].lookup "index").getD Json.null)
      = .ok 1 ∧
    mkInfoRow (.num "801") .null .null .null
        (.obj [("index", .num "1"), ("settingsHash", .num "77")])
      = .ok (1, [.num "77", .null, .null, .arr [], .null, .null, .null,
                 .null, .num "801", .null, .null, .null]) ∧
    mkPlanetRow ("3", .obj [("name", .str "X")])
      = .ok (3, [.str "X", .null, .null, .null, .str "[]"]) := by
  have h := C6_missing_optional_fields (.num "801") .null .null .null
    [("index", .num "1"), ("settingsHash", .num "77")] 1 rfl rfl rfl
  exact ⟨rfl, rfl, rfl, h.1, h.2 [("name", .str "X")] "3" 3 rfl rfl rfl⟩

/-- C7: an upsert whose key already exists replaces the entire non-key
column set with the new row's values in one step — never a column-level
partial update — and leaves every other key's row untouched; concretely,
re-ingesting planet 5's status with health 80 over a stored health 100
rewrites exactly planet 5's war_status row and nothing else. -/
theorem C7_upsert_replaces_whole_row (t : Table) (k : Int) (v : List Json)
    (k' : Int) (hne : k' ≠ k) :
    lookupT (upsertRow t k v) k = some v ∧
    lookupT (upsertRow t k v) k' = lookupT t k' ∧
    runStore envOk health80Data dbPlanets57
      = { emptyDB with war_status := [(5, statusRow5new), (7, statusRow7)] } :=
  ⟨lookupT_upsert_self t k v, lookupT_upsert_ne t k v k' hne, rfl⟩

/-- Witness for C7 at planet 5's table with planet 7 untouched. -/
theorem C7_upsert_replaces_whole_row_witness :
    lookupT (upsertRow dbPlanets57.war_status 5 statusRow5new) 5
      = some statusRow5new ∧
    lookupT (upsertRow dbPlanets57.war_status 5 statusRow5new) 7
      = lookupT dbPlanets57.war_status 7 :=
  ⟨(C7_upsert_replaces_whole_row dbPlanets57.war_status 5 statusRow5new 7
      (by decide)).1,
   (C7_upsert_replaces_whole_row dbPlanets57.war_status 5 statusRow5new 7
      (by decide)).2.1⟩

/-- C4: every configured resource is attempted in every run — the fetched
dict always binds all six keys (one log record per attempt), a failed
fetch contributing None; a failed news fetch normalizes to zero news rows
and leaves war_news untouched while the rest of the run proceeds; and the
concrete news-down scenario still commits the war_status, war_info,
war_campaign, war_major_orders and planets rows of the five successful
resources. -/
theorem C4_resource_resilience (net : String → HttpResult)
    (env : StoreEnv) (db : DB) :
    ((fetch_all_data net).1.map Prod.fst
      = ["status", "info", "news", "campaign", "major_orders", "planets"]) ∧
    ((fetch_all_data net).2.length = 6) ∧
    (httpFailed (net (API_BASE_URL ++ "/news")) = true →
      normNewsPhase (fetch_all_data net).1 = .ok [] ∧
      (runStore env (fetch_all_data net).1 db).war_news = db.war_news) ∧
    store_data envOk (fetch_all_data netNewsDown).1 emptyDB
      = .ok (expectedNewsDownDB,
          [LogRec.info "All data stored successfully."]) := by
  refine ⟨rfl, rfl, ?_, rfl⟩
  intro hfail
  have hnone : (fetch_json net (API_BASE_URL ++ "/news")).1 = none := by
    unfold fetch_json
    rw [if_pos hfail]
  have hlook : ((fetch_all_data net).1).lookup "news"
      = some ((fetch_json net (API_BASE_URL ++ "/news")).1) := rfl
  rw [hnone] at hlook
  have hpres : present (fetch_all_data net).1 "news" = none := by
    unfold present
    rw [hlook]
  have hnews : normNewsPhase (fetch_all_data net).1 = .ok [] := by
    unfold normNewsPhase
    rw [hpres]
  refine ⟨hnews, ?_⟩
  rw [runStore_eq]
  cases hc : env.connectOk with
  | false => rfl
  | true =>
    cases hn : normAll env (fetch_all_data net).1 with
    | error e => rfl
    | ok r =>
      obtain ⟨ra, rb, rc, rd, re, rf⟩ := r
      have hinv := normAll_ok_inv env (fetch_all_data net).1 _ hn
      have hrcEq : normNewsPhase (fetch_all_data net).1 = .ok rc :=
        hinv.2.2.2.1
      rw [hnews] at hrcEq
      have hrc : rc = [] := (Except.ok.inj hrcEq).symm
      subst hrc
      show (applyAll (ra, rb, [], rd, re, rf) db).war_news = db.war_news
      rfl

/-- Witness for C4 on the news-down network over a populated store. -/
theorem C4_resource_resilience_witness :
    normNewsPhase (fetch_all_data netNewsDown).1 = .ok [] ∧
    (runStore envOk (fetch_all_data netNewsDown).1 dbNews).war_news
      = dbNews.war_news :=
  (C4_resource_resilience netNewsDown envOk dbNews).2.2.1 rfl

/-- C8: in every run, a stored row whose primary key the run's payload
does not supply is left completely unchanged in each of the six
relations, and no run ever deletes a row from any relation. -/
theorem C8_untouched_rows_frame (env : StoreEnv)
    (data : List (String × Option Json)) (db : DB) (k : Int) :
    (k ∉ statusRunKeys data →
      lookupT (runStore env data db).war_status k
        = lookupT db.war_status k) ∧
    (k ∉ infoRunKeys data →
      lookupT (runStore env data db).war_info k = lookupT db.war_info k) ∧
    (k ∉ newsRunKeys data →
      lookupT (runStore env data db).war_news k = lookupT db.war_news k) ∧
    (k ∉ campaignRunKeys data →
      lookupT (runStore env data db).war_campaign k
        = lookupT db.war_campaign k) ∧
    (k ∉ ordersRunKeys data →
      lookupT (runStore env data db).war_major_orders k
        = lookupT db.war_major_orders k) ∧
    (k ∉ planetsRunKeys data →
      lookupT (runStore env data db).planets k = lookupT db.planets k) ∧
    ((lookupT db.war_status k).isSome →
      (lookupT (runStore env data db).war_status k).isSome) ∧
    ((lookupT db.war_info k).isSome →
      (lookupT (runStore env data db).war_info k).isSome) ∧
    ((lookupT db.war_news k).isSome →
      (lookupT (runStore env data db).war_news k).isSome) ∧
    ((lookupT db.war_campaign k).isSome →
      (lookupT (runStore env data db).war_campaign k).isSome) ∧
    ((lookupT db.war_major_orders k).isSome →
      (lookupT (runStore env data db).war_major_orders k).isSome) ∧
    ((lookupT db.planets k).isSome →
      (lookupT (runStore env data db).planets k).isSome) := by
  simp only [runStore_eq]
  cases hc : env.connectOk with
  | false =>
    exact ⟨fun _ => rfl, fun _ => rfl, fun _ => rfl, fun _ => rfl,
           fun _ => rfl, fun _ => rfl, fun h => h, fun h => h, fun h => h,
           fun h => h, fun h => h, fun h => h⟩
  | true =>
    cases hn : normAll env data with
    | error e =>
      exact ⟨fun _ => rfl, fun _ => rfl, fun _ => rfl, fun _ => rfl,
             fun _ => rfl, fun _ => rfl, fun h => h, fun h => h, fun h => h,
             fun h => h, fun h => h, fun h => h⟩
    | ok r =>
      obtain ⟨ra, rb, rc, rd, re, rf⟩ := r
      have hinv := normAll_ok_inv env data _ hn
      have e₁ : normStatusPhase data = .ok ra := hinv.2.1
      have e₂ : normInfoPhase data = .ok rb := hinv.2.2.1
      have e₃ : normNewsPhase data = .ok rc := hinv.2.2.2.1
      have e₄ : normCampaignPhase data = .ok rd := hinv.2.2.2.2.1
      have e₅ : normOrdersPhase data = .ok re := hinv.2.2.2.2.2.1
      have e₆ : normPlanetsPhase data = .ok rf := hinv.2.2.2.2.2.2
      refine ⟨?_, ?_, ?_, ?_, ?_, ?_, ?_, ?_, ?_, ?_, ?_, ?_⟩
      · intro hm
        simp only [statusRunKeys, e₁, okRows] at hm
        show lookupT (applyRows ra db.war_status) k = lookupT db.war_status k
        exact lookupT_applyRows_of_not_mem ra db.war_status k hm
      · intro hm
        simp only [infoRunKeys, e₂, okRows] at hm
        show lookupT (applyRows rb db.war_info) k = lookupT db.war_info k
        exact lookupT_applyRows_of_not_mem rb db.war_info k hm
      · intro hm
        simp only [newsRunKeys, e₃, okRows] at hm
        show lookupT (applyRowsIgn rc db.war_news) k = lookupT db.war_news k
        exact lookupT_applyRowsIgn_of_not_mem rc db.war_news k hm
      · intro hm
        simp only [campaignRunKeys, e₄, okRows] at hm
        show lookupT (applyRows rd db.war_campaign) k
          = lookupT db.war_campaign k
        exact lookupT_applyRows_of_not_mem rd db.war_campaign k hm
      · intro hm
        simp only [ordersRunKeys, e₅, okRows] at hm
        show lookupT (applyRows re db.war_major_orders) k
          = lookupT db.war_major_orders k
        exact lookupT_applyRows_of_not_mem re db.war_major_orders k hm
      · intro hm
        simp only [planetsRunKeys, e₆, okRows] at hm
        show lookupT (applyRows rf db.planets) k = lookupT db.planets k
        exact lookupT_applyRows_of_not_mem rf db.planets k hm
      · intro hs
        show (lookupT (applyRows ra db.war_status) k).isSome
        exact lookupT_applyRows_isSome ra db.war_status k hs
      · intro hs
        show (lookupT (applyRows rb db.war_info) k).isSome
        exact lookupT_applyRows_isSome rb db.war_info k hs
      · intro hs
        show (lookupT (applyRowsIgn rc db.war_news) k).isSome
        exact lookupT_applyRowsIgn_isSome rc db.war_news k hs
      · intro hs
        show (lookupT (applyRows rd db.war_campaign) k).isSome
        exact lookupT_applyRows_isSome rd db.war_campaign k hs
      · intro hs
        show (lookupT (applyRows re db.war_major_orders) k).isSome
        exact lookupT_applyRows_isSome re db.war_major_orders k hs
      · intro hs
        show (lookupT (applyRows rf db.planets) k).isSome
        exact lookupT_applyRows_isSome rf db.planets k hs

/-- Witness for C8 at key 99, present in all six relations and absent
from an empty payload. -/
theorem C8_untouched_rows_frame_witness :
    lookupT (runStore envOk [] dbAll99).war_status 99
      = lookupT dbAll99.war_status 99 ∧
    lookupT (runStore envOk [] dbAll99).war_info 99
      = lookupT dbAll99.war_info 99 ∧
    lookupT (runStore envOk [] dbAll99).war_news 99
      = lookupT dbAll99.war_news 99 ∧
    lookupT (runStore envOk [] dbAll99).war_campaign 99
      = lookupT dbAll99.war_campaign 99 ∧
    lookupT (runStore envOk [] dbAll99).war_major_orders 99
      = lookupT dbAll99.war_major_orders 99 ∧
    lookupT (runStore envOk [] dbAll99).planets 99
      = lookupT dbAll99.planets 99 ∧
    (lookupT (runStore envOk [] dbAll99).war_status 99).isSome ∧
    (lookupT (runStore envOk [] dbAll99).war_info 99).isSome ∧
    (lookupT (runStore envOk [] dbAll99).war_news 99).isSome ∧
    (lookupT (runStore envOk [] dbAll99).war_campaign 99).isSome ∧
    (lookupT (runStore envOk [] dbAll99).war_major_orders 99).isSome ∧
    (lookupT (runStore envOk [] dbAll99).planets 99).isSome := by
  have h := C8_untouched_rows_frame envOk [] dbAll99 99
  exact ⟨h.1 (by decide), h.2.1 (by decide), h.2.2.1 (by decide),
         h.2.2.2.1 (by decide), h.2.2.2.2.1 (by decide),
         h.2.2.2.2.2.1 (by decide), h.2.2.2.2.2.2.1 rfl,
         h.2.2.2.2.2.2.2.1 rfl, h.2.2.2.2.2.2.2.2.1 rfl,
         h.2.2.2.2.2.2.2.2.2.1 rfl, h.2.2.2.2.2.2.2.2.2.2.1 rfl,
         h.2.2.2.2.2.2.2.2.2.2.2 rfl⟩

end Pipeline
